import Mathlib

/-
Verification of the buddy-mlir image container (`Img<T, N>` in
frontend/Interfaces/buddy/DIP/ImageContainer.h) against its natural-language
specification.

The C++ class `Img<T, N>` derives from `MemRef<T, N>` (Container.h, which is
not part of the shown sources; the parts of it that matter are modelled from
the spec and marked as such).  Heap allocations (`new size_t[n]`, `new T[n]`)
are modelled by an explicit heap: every allocation gets a fresh numeric id and
the heap maps each id to the current contents of that array.  Pointers are
`Option Nat` (an allocation id or null).  Machine `size_t` arithmetic is
`Nat` with an explicit `% 2^64`; C `int` values are `Int`.
-/

namespace BuddyDIP

/-- Modulus of `size_t` arithmetic (64-bit). -/
def USZ : Nat := 2 ^ 64

/-- C conversion from `int` to `size_t`: reduction modulo 2^64
(for nonnegative values below 2^64 this is `Int.toNat`). -/
def toSize (i : Int) : Nat := (i % (2 ^ 64 : Int)).toNat

/-- The program heap: an allocation counter, the contents of every element
array (`new T[..]`), the contents of every `size_t` array
(`new size_t[..]`), and which allocation ids have been freed. -/
structure Heap (T : Type) where
  next : Nat
  elemMem : Nat → List T
  sizeMem : Nat → List Nat
  freed : Nat → Bool

/-- The initial (empty) heap. -/
def hInit {T : Type} : Heap T :=
  { next := 0, elemMem := fun _ => [], sizeMem := fun _ => [], freed := fun _ => false }

/-- Shallow embedding of `Img<T, N>` together with the `MemRef<T, N>` base
fields it manipulates.  `rank` is the template parameter `N`; `flags`,
`dims`, `rows`, `cols` are the `int` members; `sizeArr` is the `size_t *_size`
member and `data` the `T *data` member (allocation ids or null); `size`,
`allocated`, `aligned` and `strides` are the base-class members referenced by
the source (`this->size`, `this->allocated`, `this->aligned`) plus the
stride array described by the spec. -/
structure Img (T : Type) where
  rank : Nat
  flags : Int
  dims : Int
  rows : Int
  cols : Int
  sizeArr : Option Nat
  data : Option Nat
  size : Nat
  allocated : Option Nat
  aligned : Option Nat
  strides : List Int

/-- Img default constructor (src lines 139-140):
`Img() : MemRef<T, N>(), flags(0), dims(0), rows(0), cols(0) {}`.
The base `MemRef<T, N>()` is modelled from the spec: Container.h is not under
src/; the spec's default construction gives all sizes/strides zero, size 0 and
no storage.  The source leaves the `_size` and `data` members of `Img`
uninitialized; the model takes them as null, and no claim below depends on
that choice. -/
def imgDefault (T : Type) (N : Nat) : Img T :=
  { rank := N, flags := 0, dims := 0, rows := 0, cols := 0,
    sizeArr := none, data := none, size := 0,
    allocated := none, aligned := none,
    strides := List.replicate N 0 }

/-- `Img::total()` (src lines 285-293): `rows * cols` (as `size_t`) when
`dims <= 2`, otherwise the product of the `dims` entries of `_size`.
All `size_t` products are taken modulo 2^64. -/
def totalFn {T : Type} (h : Heap T) (m : Img T) : Nat :=
  if m.dims ≤ 2 then (toSize m.rows * toSize m.cols) % USZ
  else ((List.range m.dims.toNat).map
    (fun i => (h.sizeMem (m.sizeArr.getD 0)).getD i 0)).foldl
      (fun p x => p * x % USZ) 1

/-- Read `_size[i]` of a handle (out-of-range or null reads yield the
modelling default 0; no claim below rests on such a read). -/
def sizeAt {T : Type} (h : Heap T) (m : Img T) (i : Nat) : Nat :=
  (h.sizeMem (m.sizeArr.getD 0)).getD i 0

/-- The index of the first `i < nd` with `(size_t)sizes[i] != _size[i]`
(the loop in `Img::create`, src lines 223-225), or `nd` when none. -/
def firstMismatch {T : Type} (h : Heap T) (m : Img T) (nd : Nat) (szs : List Int) : Nat :=
  ((List.range nd).find? (fun i => ! (toSize (szs.getD i 0) == sizeAt h m i))).getD nd

/-- The early-return guard of `Img::create(int ndims, const int *, int)`
(src lines 218-228), as a Boolean. -/
def createEarlyRet {T : Type} (h : Heap T) (m : Img T) (ndims : Int) (szs : List Int) : Bool :=
  if ndims = m.dims ∨ (ndims = 1 ∧ ndims ≤ 2) then
    if m.dims = 1 ∧ (ndims = 1 ∧ toSize (szs.getD 0 0) = sizeAt h m 0) then true
    else if ndims = 2 ∧ m.rows = szs.getD 0 0 ∧ m.cols = szs.getD 1 0 then true
    else if firstMismatch h m ndims.toNat szs = ndims.toNat ∧ (1 < ndims ∨ sizeAt h m 1 = 1)
      then true
    else false
  else false

/-- The fall-through body of `Img::create(int ndims, const int *, int)`
(src lines 229-239).  In source order: `dims = ndims`; `_size = new
size_t[ndims]` (uninitialized contents, supplied as `junkS`); `size = total()`
(which, for `ndims > 2`, reads the uninitialized array); `_size[i] = sizes[i]`
for `i < ndims`; if `total() > 0`, allocate `new T[total()]` (uninitialized
contents `junkE`) and point `allocated`, `aligned` and `data` at it. -/
def createBody {T : Type} [Inhabited T] (h : Heap T) (m : Img T) (ndims : Int)
    (szs : List Int) (junkS : List Nat) (junkE : List T) : Heap T × Img T :=
  let nd := ndims.toNat
  let sid := h.next
  let junkContents := (List.range nd).map (fun i => junkS.getD i 0)
  let h1 : Heap T :=
    { h with
      next := h.next + 1
      sizeMem := fun j => if j = sid then junkContents else h.sizeMem j }
  let m1 : Img T := { m with dims := ndims, sizeArr := some sid }
  let sz := totalFn h1 m1
  let filled := (List.range nd).map (fun i => toSize (szs.getD i 0))
  let h2 : Heap T :=
    { h1 with sizeMem := fun j => if j = sid then filled else h1.sizeMem j }
  let m2 : Img T := { m1 with size := sz }
  let t2 := totalFn h2 m2
  if 0 < t2 then
    let did := h2.next
    let econtents := (List.range t2).map (fun i => junkE.getD i default)
    let h3 : Heap T :=
      { h2 with
        next := h2.next + 1
        elemMem := fun j => if j = did then econtents else h2.elemMem j }
    (h3, { m2 with allocated := some did, aligned := some did, data := some did })
  else (h2, m2)

/-- `Img::create(int ndims, const int *sizes, int _type)` (src lines 215-240).
The `_type` argument is accepted and ignored, as in the source. -/
def createN {T : Type} [Inhabited T] (h : Heap T) (m : Img T) (ndims : Int)
    (szs : List Int) (ty : Int) (junkS : List Nat) (junkE : List T) : Heap T × Img T :=
  let _ := ty
  if createEarlyRet h m ndims szs then (h, m)
  else createBody h m ndims szs junkS junkE

/-- `Img::create(int rows, int cols, int type)` (src lines 199-209):
sets `this->cols`, `this->rows`, then calls the dimension-array `create`
with `{rows, cols}`. -/
def createRC {T : Type} [Inhabited T] (h : Heap T) (m : Img T) (rows cols ty : Int)
    (junkS : List Nat) (junkE : List T) : Heap T × Img T :=
  let m1 : Img T := { m with cols := cols, rows := rows }
  createN h m1 2 [rows, cols] ty junkS junkE

/-- `Img::Img(int _rows, int _cols, int type)` (src lines 149-153): the body
calls `create(rows, cols, type)` with the zero-initialized members `rows`
and `cols`, not with the parameters `_rows` and `_cols`. -/
def imgRC (T : Type) [Inhabited T] (h : Heap T) (N : Nat) ( _rows _cols ty : Int)
    (junkS : List Nat) (junkE : List T) : Heap T × Img T :=
  let _ := ( _rows, _cols)
  let m0 := imgDefault T N
  createRC h m0 m0.rows m0.cols ty junkS junkE

/-- `Img::Img(const Img &m)` (src lines 171-189): base initialized with the
default `MemRef<T, N>()`; `flags`/`dims`/`rows`/`cols` copied; if `m._size`
is null, return; else allocate `_size = new size_t[m.dims]` and copy `N`
entries from `m._size` (the loop bound is the template parameter `N`, not
`m.dims`; the model keeps the in-range writes); `size = total()`;
`allocated = new T[size]`, copy `m.aligned[i]` for `i < size`, and point
`aligned` and `data` at it. -/
def copyCtor {T : Type} [Inhabited T] (h : Heap T) (m : Img T) (junkS : List Nat) :
    Heap T × Img T :=
  let t0 : Img T := { imgDefault T m.rank with
    flags := m.flags, dims := m.dims, rows := m.rows, cols := m.cols }
  match m.sizeArr with
  | none => (h, t0)
  | some sa =>
    let sid := h.next
    let srcSizes := h.sizeMem sa
    let contents := (List.range m.dims.toNat).map
      (fun i => if i < m.rank then srcSizes.getD i 0 else junkS.getD i 0)
    let h1 : Heap T :=
      { h with
        next := h.next + 1
        sizeMem := fun j => if j = sid then contents else h.sizeMem j }
    let t1 : Img T := { t0 with sizeArr := some sid }
    let sz := totalFn h1 t1
    let did := h1.next
    let srcElems := h.elemMem (m.aligned.getD 0)
    let econtents := (List.range sz).map (fun i => srcElems.getD i default)
    let h2 : Heap T :=
      { h1 with
        next := h1.next + 1
        elemMem := fun j => if j = did then econtents else h1.elemMem j }
    (h2, { t1 with
           size := sz
           allocated := some did
           aligned := some did
           data := some did })

/-- `Img::operator=(const Img &m)` (src lines 248-271).  `ptrEq` is the
result of the `this == &m` pointer-identity test: when true the operator
returns `*this` unchanged.  Otherwise: `flags = m.flags`; if both `dims` are
at most 2, copy `dims`/`rows`/`cols`, assign the `_size` POINTER
(`this->_size = m._size`, no fresh allocation) and recompute `size = total()`;
the `else` branch is empty; finally allocate `new T[this->size]`, copy
`m.aligned[i]` for `i < this->size`, and point `allocated`/`aligned`/`data`
at the fresh buffer. -/
def assign {T : Type} [Inhabited T] (h : Heap T) (dst src : Img T) (ptrEq : Bool) :
    Heap T × Img T :=
  if ptrEq then (h, dst)
  else
    let d1 : Img T := { dst with flags := src.flags }
    let d2 : Img T :=
      if d1.dims ≤ 2 ∧ src.dims ≤ 2 then
        let d : Img T :=
          { d1 with
            dims := src.dims
            rows := src.rows
            cols := src.cols
            sizeArr := src.sizeArr }
        { d with size := totalFn h d }
      else d1
    let did := h.next
    let srcElems := h.elemMem (src.aligned.getD 0)
    let econtents := (List.range d2.size).map (fun i => srcElems.getD i default)
    let h1 : Heap T :=
      { h with
        next := h.next + 1
        elemMem := fun j => if j = did then econtents else h.elemMem j }
    (h1, { d2 with allocated := some did, aligned := some did, data := some did })

/-- A move construction `Img b(std::move(a))`.  `Img` declares a copy
constructor and a copy assignment operator and no move operations, so the
implicit move constructor is suppressed and overload resolution binds the
rvalue to `const Img &`: the copy constructor runs and the source object is
not modified (it is passed by const reference).  The result pairs the
(heap, destination) of the copy with the unchanged source. -/
def moveCtor {T : Type} [Inhabited T] (h : Heap T) (m : Img T) (junkS : List Nat) :
    (Heap T × Img T) × Img T :=
  (copyCtor h m junkS, m)

/-- A move assignment `b = std::move(a)`: `Img` declares no move assignment
operator, so the implicit one is suppressed and the rvalue binds to
`const Img &` — the copy assignment operator `operator=(const Img &)` runs
on two distinct objects (`ptrEq` false) and the source, passed by const
reference, is not modified.  The result pairs the (heap, destination) of the
assignment with the unchanged source. -/
def moveAssign {T : Type} [Inhabited T] (h : Heap T) (dst src : Img T) :
    (Heap T × Img T) × Img T :=
  (assign h dst src false, src)

/-- `Img::channels()` (src lines 273-275): `dims <= 2 ? 1 : 3`. -/
def channels {T : Type} (m : Img T) : Int :=
  if m.dims ≤ 2 then 1 else 3

/-- Modelled from the spec: the channel-dimension extent of a handle.
The spec's color construction iterates rows, cols, channels in row-major
order, so the channel dimension is the last (innermost) dimension. -/
def channelExtent {T : Type} (h : Heap T) (m : Img T) : Nat :=
  sizeAt h m (m.dims.toNat - 1)

/-- Modelled from the spec: destruction (the `MemRef` destructor in
Container.h, not under src/) releases `allocated` if and only if the handle
owns it; a null `allocated` is not freed. -/
def destroy {T : Type} (h : Heap T) (m : Img T) : Heap T :=
  match m.allocated with
  | none => h
  | some a => { h with freed := fun j => if j = a then true else h.freed j }

/-- Write element `k` of a handle through its `data` pointer
(`m.data[k] = v`, as the test does). -/
def writeElem {T : Type} (h : Heap T) (m : Img T) (k : Nat) (v : T) : Heap T :=
  let did := m.data.getD 0
  { h with elemMem := fun j => if j = did then (h.elemMem did).set k v else h.elemMem j }

/-- Read element `k` of a handle through its `aligned` pointer
(`getData()[k]` and `operator[]` in the test). -/
def readAligned {T : Type} [Inhabited T] (h : Heap T) (m : Img T) (k : Nat) : T :=
  (h.elemMem (m.aligned.getD 0)).getD k default

/-- Write the values `vs` to elements `0, 1, ...` of a handle in order
(the fill loop of the test, `data[k] = ...`). -/
def fillData {T : Type} [Inhabited T] (h : Heap T) (m : Img T) (vs : List T) : Heap T :=
  (List.range vs.length).foldl (fun hh k => writeElem hh m k (vs.getD k default)) h

/-- Modelled from the spec: the stride computation of the buffer descriptor
(Container.h, not under src/): `strides[Rank-1] = 1`; for `i` from `Rank-2`
down to `0`, `strides[i] = strides[i+1] * sizes[i+1]`. -/
def computeStrides : List Nat → List Nat
  | [] => []
  | [_] => [1]
  | _ :: s :: rest =>
      ((computeStrides (s :: rest)).headD 0) * s :: computeStrides (s :: rest)

/-
Concrete program states used by the test-scenario claims
(src/tests/Interface/core/ImageContainerTest.cpp).
-/

/-- The 4x4 grayscale pixel grid of the test image (test lines 28-33). -/
def pixelVals : List Int :=
  [15, 30, 45, 60, 75, 90, 105, 120, 135, 150, 165, 180, 195, 210, 225, 240]

/-- The handle of the test scenario right after
`testOpenCVConstructor.create(4, 4, 2)` (test line 45). -/
def imgS0 : Heap Int × Img Int := createRC hInit (imgDefault Int 2) 4 4 2 [] []

/-- The test-scenario state after the fill loop `data[k] = pixel` over all
16 pixels (test lines 46-54). -/
def imgScenario : Heap Int × Img Int := (fillData imgS0.1 imgS0.2 pixelVals, imgS0.2)

/-- A default-constructed handle on which the dimension-array overload
`create(2, {4, 4}, type)` is called directly (both `create` overloads are
public).  `size = total()` is computed from the stale `rows`/`cols`
members, which this overload never updates. -/
def c2pair : Heap Int × Img Int := createN hInit (imgDefault Int 2) 2 [4, 4] 0 [] []

/-- A rank-4 handle built by `create(4, {1, 4, 4, 4}, type)`: four dimensions
with a channel-dimension extent of 4. -/
def c7pair : Heap Int × Img Int := createN hInit (imgDefault Int 4) 4 [1, 4, 4, 4] 0 [] []

/-- The external image matrix, as the core consumes it: channel count, row
and column counts, and a per-pixel sample accessor. -/
structure ExtMat where
  mchannels : Int
  mrows : Int
  mcols : Int
  pix : Nat → Nat → Rat

/-- Outcome of constructing an image handle from an external matrix:
either a (heap, handle, diagnostic-reported) triple, or an assertion
failure on a rank/channel contract violation. -/
inductive MatCtorResult where
  | ok (h : Heap Rat) (m : Img Rat) (diag : Bool)
  | assertFail

/-- Modelled from the spec: the `Img` constructor taking an external image
matrix is not present under src/ (the test only carries a commented-out call
to it).  Per the spec: a 1-channel matrix requires `Rank == 2` and a
3-channel matrix requires `Rank == 4` (asserted); a channel count outside
{1, 3} reports an unsupported-format diagnostic and leaves the handle in the
safe empty default state; the grayscale path allocates `rows * cols`
elements and copies each sample, dividing by 255 when normalization is
requested; the color path is the row-major generalization over rows, cols
and channels with sizes `{1, rows, cols, 3}`. -/
def imgFromMat (h : Heap Rat) (N : Nat) (mat : ExtMat) (norm : Bool) : MatCtorResult :=
  let adj : Rat → Rat := fun v => if norm then v / 255 else v
  if mat.mchannels = 1 then
    if N = 2 then
      let r := toSize mat.mrows
      let c := toSize mat.mcols
      let sid := h.next
      let did := h.next + 1
      let vals := (List.range (r * c)).map (fun k => adj (mat.pix (k / c) (k % c)))
      let h1 : Heap Rat :=
        { h with
          next := h.next + 2
          sizeMem := fun j => if j = sid then [r, c] else h.sizeMem j
          elemMem := fun j => if j = did then vals else h.elemMem j }
      .ok h1
        { rank := 2, flags := 0, dims := 2, rows := mat.mrows, cols := mat.mcols,
          sizeArr := some sid, data := some did, size := r * c,
          allocated := some did, aligned := some did,
          strides := (computeStrides [r, c]).map Int.ofNat } false
    else .assertFail
  else if mat.mchannels = 3 then
    if N = 4 then
      let r := toSize mat.mrows
      let c := toSize mat.mcols
      let sid := h.next
      let did := h.next + 1
      let vals := (List.range (r * c * 3)).map (fun k =>
        adj (mat.pix (k / (c * 3)) (k % (c * 3) / 3)))
      let h1 : Heap Rat :=
        { h with
          next := h.next + 2
          sizeMem := fun j => if j = sid then [1, r, c, 3] else h.sizeMem j
          elemMem := fun j => if j = did then vals else h.elemMem j }
      .ok h1
        { rank := 4, flags := 0, dims := 4, rows := mat.mrows, cols := mat.mcols,
          sizeArr := some sid, data := some did, size := r * c * 3,
          allocated := some did, aligned := some did,
          strides := (computeStrides [1, r, c, 3]).map Int.ofNat } false
    else .assertFail
  else .ok h (imgDefault Rat N) true

/-
Theorems settling the claims.
-/

theorem computeStrides_length (l : List Nat) : (computeStrides l).length = l.length := by
  induction l with
  | nil => rfl
  | cons x t ih =>
    cases t with
    | nil => rfl
    | cons s rest => simp only [computeStrides, List.length_cons] at ih ⊢; omega

/-- C1: for every nonempty sizes vector, the strides computed by the
descriptor's stride computation satisfy `strides[Rank-1] == 1` and
`strides[i] == strides[i+1] * sizes[i+1]` for every `i < Rank-1`
(row-major layout). -/
theorem computeStrides_row_major (sizes : List Nat) (hne : sizes ≠ []) :
    (computeStrides sizes).getD (sizes.length - 1) 0 = 1 ∧
    ∀ i < sizes.length - 1,
      (computeStrides sizes).getD i 0 =
        (computeStrides sizes).getD (i + 1) 0 * sizes.getD (i + 1) 0 := by
  induction sizes with
  | nil => exact absurd rfl hne
  | cons x t ih =>
    cases t with
    | nil =>
      refine ⟨rfl, ?_⟩
      intro i hi
      simp at hi
    | cons s rest =>
      obtain ⟨ihA, ihB⟩ := ih (by simp)
      have hcs : computeStrides (s :: rest) ≠ [] := by
        intro hh
        have hl := computeStrides_length (s :: rest)
        rw [hh] at hl
        simp at hl
      obtain ⟨b, bs, hb⟩ := List.exists_cons_of_ne_nil hcs
      constructor
      · have hlen : (x :: s :: rest).length - 1 = rest.length + 1 := by simp
        rw [hlen]
        simp only [computeStrides, List.getD_cons_succ]
        have hlen2 : (s :: rest).length - 1 = rest.length := by simp
        rw [hlen2] at ihA
        exact ihA
      · intro i hi
        cases i with
        | zero =>
          simp only [computeStrides, List.getD_cons_zero, List.getD_cons_succ, hb,
            List.headD_cons]
        | succ n =>
          have hn : n < (s :: rest).length - 1 := by
            simp only [List.length_cons] at hi ⊢
            omega
          have := ihB n hn
          simp only [computeStrides, List.getD_cons_succ]
          exact this

/-- C1 witness: the row-major stride property evaluated at the concrete
sizes vector (4, 4): the last stride is 1 and the first is the product of
the following stride and size. -/
theorem computeStrides_row_major_w :
    (computeStrides [4, 4]).getD 1 0 = 1 ∧
    (computeStrides [4, 4]).getD 0 0 =
      (computeStrides [4, 4]).getD 1 0 * ([4, 4] : List Nat).getD 1 0 :=
  ⟨(computeStrides_row_major [4, 4] (by decide)).1,
   (computeStrides_row_major [4, 4] (by decide)).2 0 (by decide)⟩

/-- C6: self-copy-assignment — and self-move-assignment, which resolves to
the same copy assignment operator because `Img` declares no move operations —
hits the `this == &m` guard of `operator=` and is a no-op: it returns the
same instance and leaves the heap and every observable field (`sizes`,
`strides`, `size`, element values) unchanged. -/
theorem self_assign_noop (T : Type) [Inhabited T] (h : Heap T) (m : Img T) :
    assign h m m true = (h, m) := rfl

/-- C10: `Img(int _rows, int _cols, int type)` passes the zero-initialized
members `rows`/`cols` to `create`, not its parameters `_rows`/`_cols`, so
for every argument triple it produces an empty handle: rows 0, cols 0,
`total() == 0`, and no element storage allocated. -/
theorem imgRC_always_empty (T : Type) [Inhabited T] (h : Heap T) (N : Nat)
    (r c ty : Int) (junkS : List Nat) (junkE : List T) :
    (imgRC T h N r c ty junkS junkE).2.rows = 0 ∧
    (imgRC T h N r c ty junkS junkE).2.cols = 0 ∧
    totalFn (imgRC T h N r c ty junkS junkE).1 (imgRC T h N r c ty junkS junkE).2 = 0 ∧
    (imgRC T h N r c ty junkS junkE).2.allocated = none :=
  ⟨rfl, rfl, rfl, rfl⟩

/-- C9 (the code evaluated at the failing input): in the 4x4 grayscale test
scenario the constructed handle reports rank 2, sizes (4, 4), total element
count 16, element 15 at linear index 0 and element 60 at linear index 3,
exactly as claimed; but its strides are the default-constructed (0, 0), not
(4, 1): `Img::create` never recomputes the stride array, and the test prints
the literal constants 4 and 1 (with a `getStride` comment) instead of
reading the handle's strides. -/
theorem scenario_props :
    imgScenario.2.dims = 2 ∧
    imgScenario.1.sizeMem (imgScenario.2.sizeArr.getD 0) = [4, 4] ∧
    totalFn imgScenario.1 imgScenario.2 = 16 ∧
    readAligned imgScenario.1 imgScenario.2 0 = 15 ∧
    readAligned imgScenario.1 imgScenario.2 3 = 60 ∧
    imgScenario.2.strides = [0, 0] ∧ imgScenario.2.strides ≠ [4, 1] := by
  decide

/-- C2 counterexample: a handle reached through public operations only —
default construction followed by the public dimension-array overload
`create(2, {4, 4}, type)` — stores total element count 0 (computed from the
stale zero `rows`/`cols` members) while its per-dimension sizes are (4, 4):
`size != product(sizes)`, so the claimed invariant fails. -/
theorem create_ndims_breaks_invariant :
    c2pair.2.size = 0 ∧
    c2pair.1.sizeMem (c2pair.2.sizeArr.getD 0) = [4, 4] ∧
    c2pair.2.size ≠ (c2pair.1.sizeMem (c2pair.2.sizeArr.getD 0)).prod := by
  decide

/-- C7 counterexample: the rank-4 handle with sizes (1, 4, 4, 4), reachable
through the public `create`, has channel-dimension extent 4, but
`channels()` returns the hard-coded constant 3 — it does not return the
extent of the channel dimension of the handle. -/
theorem channels_not_extent :
    c7pair.2.dims = 4 ∧ channelExtent c7pair.1 c7pair.2 = 4 ∧
    channels c7pair.2 = 3 ∧
    ¬ (channels c7pair.2 = if c7pair.2.dims ≤ 2 then 1
        else (channelExtent c7pair.1 c7pair.2 : Int)) := by
  decide

/-- C4 counterexample: copy assignment executes `this->_size = m._size`, so
the assigned-to handle's sizes array is the very allocation owned by the
source — the owning copy aliases the source's sizes storage, contradicting
the claim that a copy never aliases any of the source's storage. -/
theorem assign_aliases_size_array :
    (assign imgScenario.1 (imgDefault Int 2) imgScenario.2 false).2.sizeArr =
      imgScenario.2.sizeArr ∧
    imgScenario.2.sizeArr = some 0 := by
  decide

theorem createBody2_proj (T : Type) [Inhabited T] (h : Heap T) (m : Img T)
    (szs : List Int) (junkS : List Nat) (junkE : List T) :
    (createBody h m 2 szs junkS junkE).2.rows = m.rows ∧
    (createBody h m 2 szs junkS junkE).2.cols = m.cols ∧
    (createBody h m 2 szs junkS junkE).2.dims = 2 ∧
    (createBody h m 2 szs junkS junkE).2.sizeArr = some h.next ∧
    (createBody h m 2 szs junkS junkE).2.size = (toSize m.rows * toSize m.cols) % USZ ∧
    (createBody h m 2 szs junkS junkE).1.sizeMem h.next =
      [toSize (szs.getD 0 0), toSize (szs.getD 1 0)] := by
  unfold createBody totalFn
  norm_num
  split <;> simp [List.range_succ]

theorem createEarlyRet_dims_ne (T : Type) (h : Heap T) (m : Img T) (ndims : Int)
    (szs : List Int) (h1 : ndims ≠ m.dims) (h2 : ndims ≠ 1) :
    createEarlyRet h m ndims szs = false := by
  unfold createEarlyRet
  rw [if_neg]
  rintro (hh | ⟨hh, -⟩)
  · exact h1 hh
  · exact h2 hh

theorem createN_not_early (T : Type) [Inhabited T] (h : Heap T) (m : Img T) (ndims : Int)
    (szs : List Int) (ty : Int) (junkS : List Nat) (junkE : List T)
    (hn : createEarlyRet h m ndims szs = false) :
    createN h m ndims szs ty junkS junkE = createBody h m ndims szs junkS junkE := by
  unfold createN
  rw [hn]
  simp

/-- C2 amended: for every nonnegative in-range row and column extent, the
two-argument `create(rows, cols, type)` invoked on a default-constructed
handle produces a handle whose stored total element count equals the product
of its stored per-dimension sizes, with `rows`, `cols` and the sizes array
mutually consistent.  (The original claim over all public operations fails:
see the counterexample, where the dimension-array `create` computes `size`
from stale row/column extents.) -/
theorem createRC_fresh_consistent (r c ty : Int) (junkS : List Nat) (junkE : List Int)
    (hr : 0 ≤ r) (hr2 : r < (2 : Int) ^ 64) (hc : 0 ≤ c) (hc2 : c < (2 : Int) ^ 64)
    (hb : r.toNat * c.toNat < 2 ^ 64) :
    (createRC hInit (imgDefault Int 2) r c ty junkS junkE).2.size =
      ((createRC hInit (imgDefault Int 2) r c ty junkS junkE).1.sizeMem
        ((createRC hInit (imgDefault Int 2) r c ty junkS junkE).2.sizeArr.getD 0)).prod ∧
    (createRC hInit (imgDefault Int 2) r c ty junkS junkE).1.sizeMem
        ((createRC hInit (imgDefault Int 2) r c ty junkS junkE).2.sizeArr.getD 0) =
      [r.toNat, c.toNat] ∧
    (createRC hInit (imgDefault Int 2) r c ty junkS junkE).2.rows = r ∧
    (createRC hInit (imgDefault Int 2) r c ty junkS junkE).2.cols = c ∧
    (createRC hInit (imgDefault Int 2) r c ty junkS junkE).2.dims = 2 := by
  have tr : toSize r = r.toNat := by
    unfold toSize
    rw [Int.emod_eq_of_lt hr hr2]
  have tc : toSize c = c.toNat := by
    unfold toSize
    rw [Int.emod_eq_of_lt hc hc2]
  have hmod : (r.toNat * c.toNat) % USZ = r.toNat * c.toNat := Nat.mod_eq_of_lt hb
  have hp : createRC hInit (imgDefault Int 2) r c ty junkS junkE =
      createBody hInit { imgDefault Int 2 with cols := c, rows := r } 2
      [r, c] junkS junkE := by
    unfold createRC
    exact createN_not_early Int hInit _ 2 [r, c] ty junkS junkE
      (createEarlyRet_dims_ne Int _ _ 2 [r, c] (by simp [imgDefault]) (by norm_num))
  obtain ⟨q1, q2, q3, q4, q5, q6⟩ := createBody2_proj Int hInit
    { imgDefault Int 2 with cols := c, rows := r } [r, c] junkS junkE
  rw [hp]
  rw [q4]
  simp only [Option.getD_some]
  rw [q1, q2, q3, q5, q6]
  simp only [imgDefault]
  refine ⟨?_, ?_, by trivial, by trivial, by trivial⟩
  · simp [tr, tc, hmod, hInit]
  · simp [tr, tc, List.getD, hInit]

/-- C2 witness: the consistency property of the two-argument `create`
evaluated on the concrete extents 4 x 4 of the test scenario. -/
theorem createRC_fresh_consistent_w :
    ((0 : Int) ≤ 4 ∧ (4 : Int) < (2 : Int) ^ 64 ∧
      (4 : Int).toNat * (4 : Int).toNat < 2 ^ 64) ∧
    (createRC hInit (imgDefault Int 2) 4 4 2 [] []).2.size =
      ((createRC hInit (imgDefault Int 2) 4 4 2 [] []).1.sizeMem
        ((createRC hInit (imgDefault Int 2) 4 4 2 [] []).2.sizeArr.getD 0)).prod :=
  ⟨⟨by decide, by decide, by decide⟩,
   (createRC_fresh_consistent 4 4 2 [] [] (by decide) (by decide) (by decide) (by decide)
     (by decide)).1⟩

/-- C5 counterexample: `Img` declares copy operations and no move
operations, so `Img m2(std::move(m1))` runs the copy constructor: after the
"move" the moved-from source still owns its element storage (`allocated` is
not null) and its elements are intact — it is not left in an empty state and
no ownership transfer takes place. -/
theorem move_source_not_emptied :
    (moveCtor imgScenario.1 imgScenario.2 []).2.allocated = some 1 ∧
    (moveCtor imgScenario.1 imgScenario.2 []).2.allocated ≠ none ∧
    readAligned (moveCtor imgScenario.1 imgScenario.2 []).1.1
      (moveCtor imgScenario.1 imgScenario.2 []).2 0 = 15 := by
  decide

theorem getD_range_map {A : Type} (f : Nat → A) (n i : Nat) (d : A) (hi : i < n) :
    ((List.range n).map f).getD i d = f i := by
  simp [List.getD_eq_getElem?_getD, List.getElem?_map, List.getElem?_range, hi]

/-- C3: for every source handle that owns a sizes array and element storage,
mutating any element of a copy-constructed handle (through its data pointer,
at any index, with any value) never changes any element of the source: the
copy constructor allocates a fresh element buffer, so the two handles'
element storages are disjoint. -/
theorem copy_mutate_isolated (h : Heap Int) (src : Img Int) (sa al : Nat)
    (junkS : List Nat) (k i : Nat) (v : Int)
    (hsa : src.sizeArr = some sa) (hal : src.aligned = some al) (hlt : al < h.next) :
    readAligned (writeElem (copyCtor h src junkS).1 (copyCtor h src junkS).2 k v) src i =
      readAligned h src i := by
  have hne : al ≠ h.next + 1 := by omega
  unfold readAligned writeElem copyCtor
  rw [hsa, hal]
  simp [hne]

/-- C3 witness: in the concrete test scenario, writing 999 into element 0 of
the copy leaves element 0 of the source equal to its original value. -/
theorem copy_mutate_isolated_w :
    (imgScenario.2.sizeArr = some 0 ∧ imgScenario.2.aligned = some 1 ∧
      1 < imgScenario.1.next) ∧
    readAligned (writeElem (copyCtor imgScenario.1 imgScenario.2 []).1
        (copyCtor imgScenario.1 imgScenario.2 []).2 0 999) imgScenario.2 0 =
      readAligned imgScenario.1 imgScenario.2 0 :=
  ⟨⟨by decide, by decide, by decide⟩,
   copy_mutate_isolated imgScenario.1 imgScenario.2 0 1 [] 0 0 999 (by decide) (by decide)
     (by decide)⟩

/-- C4 amended: for every source handle that owns its sizes array and
storage, copy construction deep-copies the sizes and all elements into
freshly allocated storage that never aliases the source's storage, and
leaves the stride array at its default (it is not copied); copy assignment
deep-copies the elements into a fresh non-aliased buffer and leaves the
destination's stride array untouched, but (when both handles have rank at
most 2, the only branch that transfers the shape) assigns the source's
`_size` pointer to the destination, so the sizes array IS aliased.  The
original claim that neither operation ever aliases any of the source's
storage fails on the assignment path. -/
theorem copy_assign_storage_policy (h : Heap Int) (dst src : Img Int)
    (sa al alc : Nat) (junkS : List Nat)
    (hsa : src.sizeArr = some sa) (hsl : sa < h.next)
    (hal : src.aligned = some al)
    (hac : src.allocated = some alc) (hcl : alc < h.next)
    (hdr : src.dims.toNat = src.rank) :
    ((copyCtor h src junkS).2.sizeArr ≠ src.sizeArr ∧
     (copyCtor h src junkS).2.allocated ≠ src.allocated ∧
     (copyCtor h src junkS).2.strides = List.replicate src.rank 0 ∧
     (∀ i < src.rank,
        sizeAt (copyCtor h src junkS).1 (copyCtor h src junkS).2 i = sizeAt h src i) ∧
     (∀ i < (copyCtor h src junkS).2.size,
        readAligned (copyCtor h src junkS).1 (copyCtor h src junkS).2 i =
          readAligned h src i)) ∧
    ((assign h dst src false).2.allocated ≠ src.allocated ∧
     (assign h dst src false).2.strides = dst.strides ∧
     (dst.dims ≤ 2 → src.dims ≤ 2 →
       (assign h dst src false).2.sizeArr = src.sizeArr) ∧
     (∀ i < (assign h dst src false).2.size,
        readAligned (assign h dst src false).1 (assign h dst src false).2 i =
          readAligned h src i)) := by
  constructor
  · unfold copyCtor sizeAt readAligned
    rw [hsa, hal]
    refine ⟨?_, ?_, ?_, ?_, ?_⟩
    · simp [hsa]
      omega
    · simp [hac]
      omega
    · simp [imgDefault]
    · intro i hi
      have hi2 : i < src.dims.toNat := by omega
      simp only [Option.getD_some, if_pos rfl, if_true]
      rw [getD_range_map _ _ _ _ hi2]
      simp [hi, hsa]
    · intro i hi
      simp only [Option.getD_some, if_pos rfl, if_true] at hi ⊢
      rw [getD_range_map _ _ _ _ hi]
  · unfold assign readAligned
    simp only [Bool.false_eq_true, if_false]
    refine ⟨?_, ?_, ?_, ?_⟩
    · simp [hac]
      omega
    · split <;> rfl
    · intro hdd hsd
      rw [if_pos ⟨hdd, hsd⟩]
    · intro i hi
      rw [hal]
      by_cases hb : dst.dims ≤ 2 ∧ src.dims ≤ 2
      · simp only [hb, and_self, if_true, if_pos, Option.getD_some] at hi ⊢
        rw [getD_range_map _ _ _ _ hi]
      · simp only [hb, if_false, Option.getD_some, if_pos rfl, if_true] at hi ⊢
        rw [getD_range_map _ _ _ _ hi]

/-- C4 witness: evaluated on the concrete test scenario — the
copy-constructed handle's sizes array is a different allocation from the
source's and its strides stay at the default, while the copy-assigned
handle's sizes array is the very same allocation as the source's. -/
theorem copy_assign_storage_policy_w :
    (imgScenario.2.sizeArr = some 0 ∧ 0 < imgScenario.1.next ∧
     imgScenario.2.aligned = some 1 ∧ imgScenario.2.allocated = some 1 ∧
     1 < imgScenario.1.next ∧ imgScenario.2.dims.toNat = imgScenario.2.rank ∧
     (imgDefault Int 2).dims ≤ 2 ∧ imgScenario.2.dims ≤ 2) ∧
    (copyCtor imgScenario.1 imgScenario.2 []).2.sizeArr ≠ imgScenario.2.sizeArr ∧
    (copyCtor imgScenario.1 imgScenario.2 []).2.strides =
      List.replicate imgScenario.2.rank 0 ∧
    (assign imgScenario.1 (imgDefault Int 2) imgScenario.2 false).2.sizeArr =
      imgScenario.2.sizeArr :=
  ⟨⟨by decide, by decide, by decide, by decide, by decide, by decide, by decide, by decide⟩,
   (copy_assign_storage_policy imgScenario.1 (imgDefault Int 2) imgScenario.2 0 1 1 []
      (by decide) (by decide) (by decide) (by decide) (by decide) (by decide)).1.1,
   (copy_assign_storage_policy imgScenario.1 (imgDefault Int 2) imgScenario.2 0 1 1 []
      (by decide) (by decide) (by decide) (by decide) (by decide) (by decide)).1.2.2.1,
   (copy_assign_storage_policy imgScenario.1 (imgDefault Int 2) imgScenario.2 0 1 1 []
      (by decide) (by decide) (by decide) (by decide) (by decide) (by decide)).2.2.2.1
     (by decide) (by decide)⟩

/-- C5 amended: because `Img` declares copy operations and no move
operations, move construction and move assignment both fall back to the
copy operations (the copy constructor and `operator=` respectively): the
moved-from source is left fully intact (not emptied, no ownership
transfer), the destination owns a freshly allocated element buffer distinct
from the source's, and destroying the source therefore never frees memory
still referenced by the destination (no double free) — for either kind of
"move". -/
theorem move_falls_back_to_copy (h : Heap Int) (dst src : Img Int) (sa alc : Nat)
    (junkS : List Nat)
    (hsa : src.sizeArr = some sa)
    (hac : src.allocated = some alc) (hcl : alc < h.next)
    (hfd : h.freed (h.next + 1) = false) (hfd0 : h.freed h.next = false) :
    ((moveCtor h src junkS).2 = src ∧
     (moveCtor h src junkS).1.2.allocated ≠ src.allocated ∧
     (destroy (moveCtor h src junkS).1.1 (moveCtor h src junkS).2).freed
       ((moveCtor h src junkS).1.2.allocated.getD 0) = false) ∧
    ((moveAssign h dst src).2 = src ∧
     (moveAssign h dst src).1.2.allocated ≠ src.allocated ∧
     (destroy (moveAssign h dst src).1.1 (moveAssign h dst src).2).freed
       ((moveAssign h dst src).1.2.allocated.getD 0) = false) := by
  constructor
  · refine ⟨rfl, ?_, ?_⟩
    · unfold moveCtor copyCtor
      rw [hsa]
      simp [hac]
      omega
    · unfold moveCtor copyCtor destroy
      rw [hsa, hac]
      have hne : ¬ (h.next + 1 = alc) := by omega
      simp [hne, hfd]
  · refine ⟨rfl, ?_, ?_⟩
    · unfold moveAssign assign
      simp [hac]
      omega
    · unfold moveAssign assign destroy
      rw [hac]
      have hne : ¬ (h.next = alc) := by omega
      simp [hne, hfd0]

/-- C5 witness: in the concrete test scenario, after a "move" construction
and after a "move" assignment the source is unchanged, and destroying the
source does not mark the respective destination's allocation as freed. -/
theorem move_falls_back_to_copy_w :
    (imgScenario.2.sizeArr = some 0 ∧ imgScenario.2.allocated = some 1 ∧
     1 < imgScenario.1.next ∧ imgScenario.1.freed (imgScenario.1.next + 1) = false ∧
     imgScenario.1.freed imgScenario.1.next = false) ∧
    (moveCtor imgScenario.1 imgScenario.2 []).2 = imgScenario.2 ∧
    (destroy (moveCtor imgScenario.1 imgScenario.2 []).1.1
        (moveCtor imgScenario.1 imgScenario.2 []).2).freed
      ((moveCtor imgScenario.1 imgScenario.2 []).1.2.allocated.getD 0) = false ∧
    (moveAssign imgScenario.1 (imgDefault Int 2) imgScenario.2).2 = imgScenario.2 ∧
    (destroy (moveAssign imgScenario.1 (imgDefault Int 2) imgScenario.2).1.1
        (moveAssign imgScenario.1 (imgDefault Int 2) imgScenario.2).2).freed
      ((moveAssign imgScenario.1 (imgDefault Int 2) imgScenario.2).1.2.allocated.getD 0) =
      false :=
  ⟨⟨by decide, by decide, by decide, by decide, by decide⟩,
   (move_falls_back_to_copy imgScenario.1 (imgDefault Int 2) imgScenario.2 0 1 []
      (by decide) (by decide) (by decide) (by decide) (by decide)).1.1,
   (move_falls_back_to_copy imgScenario.1 (imgDefault Int 2) imgScenario.2 0 1 []
      (by decide) (by decide) (by decide) (by decide) (by decide)).1.2.2,
   (move_falls_back_to_copy imgScenario.1 (imgDefault Int 2) imgScenario.2 0 1 []
      (by decide) (by decide) (by decide) (by decide) (by decide)).2.1,
   (move_falls_back_to_copy imgScenario.1 (imgDefault Int 2) imgScenario.2 0 1 []
      (by decide) (by decide) (by decide) (by decide) (by decide)).2.2.2⟩

/-- C7 amended: `channels()` is a pure function of the handle: it returns 1
when the stored dimensionality is at most 2, and otherwise returns the
constant 3 — which equals the channel-dimension extent exactly for handles
whose channel dimension has extent 3 (the intended rank-4 color layout).
The original claim that it returns the stored channel-dimension extent for
every higher-rank handle fails (see the counterexample). -/
theorem channels_spec (T : Type) (h : Heap T) (m : Img T)
    (hinv : m.dims ≤ 2 ∨ channelExtent h m = 3) :
    channels m = if m.dims ≤ 2 then 1 else (channelExtent h m : Int) := by
  unfold channels
  rcases hinv with h1 | h1
  · simp [h1]
  · by_cases h2 : m.dims ≤ 2
    · simp [h2]
    · simp [h2, h1]

/-- C7 witness: the rank-2 scenario handle satisfies the invariant and
`channels()` returns 1 on it. -/
theorem channels_spec_w :
    (imgScenario.2.dims ≤ 2 ∨ channelExtent imgScenario.1 imgScenario.2 = 3) ∧
    channels imgScenario.2 = 1 :=
  ⟨Or.inl (by decide),
   channels_spec Int imgScenario.1 imgScenario.2 (Or.inl (by decide))⟩

/-- C8: constructing an image handle from an external matrix validates the
channel count against the rank — a 1-channel matrix with rank other than 2,
or a 3-channel matrix with rank other than 4, is an assertion failure — and
for any channel count outside {1, 3} an unsupported-format diagnostic is
reported and the handle is left in the safe empty default state (no
storage, size 0, null sizes pointer), from which the caller can recover. -/
theorem imgFromMat_validation (h : Heap Rat) (N : Nat) (mat : ExtMat) (norm : Bool) :
    (mat.mchannels = 1 → N ≠ 2 → imgFromMat h N mat norm = .assertFail) ∧
    (mat.mchannels = 3 → N ≠ 4 → imgFromMat h N mat norm = .assertFail) ∧
    (mat.mchannels ≠ 1 → mat.mchannels ≠ 3 →
      imgFromMat h N mat norm = .ok h (imgDefault Rat N) true ∧
      (imgDefault Rat N).allocated = none ∧ (imgDefault Rat N).size = 0 ∧
      (imgDefault Rat N).sizeArr = none) := by
  refine ⟨?_, ?_, ?_⟩
  · intro h1 h2
    simp [imgFromMat, h1, h2]
  · intro h1 h2
    simp [imgFromMat, h1, h2]
  · intro h1 h2
    refine ⟨?_, rfl, rfl, rfl⟩
    simp [imgFromMat, h1, h2]

/-- An external matrix with an unsupported channel count (2), used to
witness the diagnostic path. -/
def matBad : ExtMat := { mchannels := 2, mrows := 4, mcols := 4, pix := fun _ _ => 0 }

/-- C8 witness: a 2-channel matrix triggers the unsupported-format
diagnostic and yields the safe empty handle. -/
theorem imgFromMat_validation_w :
    (matBad.mchannels ≠ 1 ∧ matBad.mchannels ≠ 3) ∧
    imgFromMat hInit 2 matBad false = .ok hInit (imgDefault Rat 2) true :=
  ⟨⟨by decide, by decide⟩,
   ((imgFromMat_validation hInit 2 matBad false).2.2 (by decide) (by decide)).1⟩

end BuddyDIP
